import Mathlib

/-!
Verification of the multi-agent orchestration and context-assembly pipeline
(agent selection, context construction, memory gateway, conversation cache,
multi-agent controller) by a shallow embedding of the Python sources:

  src/core/agent_controller.py   (AgentSelector, MultiAgentController)
  src/core/context_engine.py     (ContextOrchestrator)
  src/core/chat_engine.py        (ChatEngine)
  src/core/memory_manager.py     (MemoryManager)
  src/models/data_models.py      (data models, ConversationCache)
  src/config/settings.py         (Config)

External effects (the mem0 store, the LLM transport) are modelled as oracle
parameters; calls that the Python code lets raise are modelled in the
`Except String` monad, and fully-caught helpers are modelled as total
functions.  Mutable state (the per-user conversation cache and the sequence
of attempted writes against the memory store) is threaded explicitly.
-/

/-! ## Python string primitives -/

/-- Model of Python `str.lower()`.  `Char.toLower` lowers the ASCII range and
is the identity elsewhere, which agrees with Python on every character that
occurs in this repository (CJK text and the ASCII keywords AI, API). -/
def pyLower (s : String) : String :=
  String.mk (s.toList.map Char.toLower)

/-- Fuel-driven scanner behind `countSub`.  The fuel starts at the length of
the haystack and every step both consumes at least one haystack character and
one unit of fuel, so the zero-fuel case on a non-empty haystack is
unreachable; structural recursion on the fuel keeps the function
kernel-reducible. -/
def countSubFuel (needle : List Char) : Nat → List Char → Nat
  | _, [] => if needle.isEmpty then 1 else 0
  | 0, _ :: _ => 0
  | fuel + 1, c :: rest =>
    if needle.isEmpty then
      1 + countSubFuel needle fuel rest
    else if needle.isPrefixOf (c :: rest) then
      1 + countSubFuel needle fuel ((c :: rest).drop needle.length)
    else
      countSubFuel needle fuel rest

/-- Model of Python `str.count(sub)`: the number of non-overlapping
occurrences of `needle`, scanning left to right; an empty needle counts
`len + 1` times, exactly as in Python. -/
def countSub (needle hay : List Char) : Nat :=
  countSubFuel needle hay.length hay

/-- Python `hay.count(pat)`. -/
def pyCount (hay pat : String) : Nat :=
  countSub pat.toList hay.toList

/-- Python substring test `pat in hay` (a substring occurs iff its
non-overlapping occurrence count is positive; the empty pattern is always
contained, as in Python). -/
def pyIn (pat hay : String) : Bool :=
  decide (0 < countSub pat.toList hay.toList)

/-- Python truthiness of an `Optional[str]`: `None` and the empty string are
falsy. -/
def optTruthy : Option String → Bool
  | none => false
  | some s => s ≠ ""

/-- Python `a or b` on `Optional[str]` values (used for
`expert_domain or agent_config.get("domain")`). -/
def pyOrOpt (a b : Option String) : Option String :=
  if optTruthy a then a else b

/-- Python `l[-n:]` for `n ≥ 1` (also the deque `maxlen` retention window):
the last `n` elements, everything when `n` exceeds the length. -/
def pyTakeLast (n : Nat) (l : List α) : List α :=
  l.drop (l.length - n)

/-! ## Stable sorting by descending score

`list.sort(key=score, reverse=True)` in `AgentSelector.select_specialists` is
a stable sort by descending score.  A stable sort is uniquely determined by
its ordering, so the insertion sort below, which moves an element past
exactly the strictly-greater ones, is an exact model of the Python call. -/

/-- Insert one scored role into an already descending-sorted list, keeping it
after every strictly higher score and before equal ones (stability). -/
def insertDesc (x : String × Nat) : List (String × Nat) → List (String × Nat)
  | [] => [x]
  | y :: ys => if x.2 < y.2 then y :: insertDesc x ys else x :: y :: ys

/-- Stable sort by descending score. -/
def sortByScoreDesc : List (String × Nat) → List (String × Nat)
  | [] => []
  | x :: xs => insertDesc x (sortByScoreDesc xs)

/-- Descending sortedness on score. -/
def ScoreSorted (l : List (String × Nat)) : Prop :=
  List.Pairwise (fun a b => b.2 ≤ a.2) l

theorem mem_insertDesc {x z : String × Nat} {l : List (String × Nat)}
    (h : z ∈ insertDesc x l) : z = x ∨ z ∈ l := by
  induction l with
  | nil => simpa [insertDesc] using h
  | cons y ys ih =>
    by_cases hc : x.2 < y.2
    · simp only [insertDesc, if_pos hc, List.mem_cons] at h
      rcases h with rfl | h
      · exact Or.inr (List.mem_cons_self _ ys)
      · rcases ih h with h2 | h2
        · exact Or.inl h2
        · exact Or.inr (List.mem_cons_of_mem _ h2)
    · simp only [insertDesc, if_neg hc, List.mem_cons] at h
      rcases h with h | h | h
      · exact Or.inl h
      · exact Or.inr (h ▸ List.mem_cons_self y ys)
      · exact Or.inr (List.mem_cons_of_mem _ h)

theorem insertDesc_sorted {x : String × Nat} {l : List (String × Nat)}
    (h : ScoreSorted l) : ScoreSorted (insertDesc x l) := by
  induction l with
  | nil => simp [insertDesc, ScoreSorted]
  | cons y ys ih =>
    rcases List.pairwise_cons.mp h with ⟨hy, hys⟩
    by_cases hc : x.2 < y.2
    · have htail := ih hys
      simp only [insertDesc, if_pos hc]
      refine List.pairwise_cons.mpr ⟨?_, htail⟩
      intro z hz
      rcases mem_insertDesc hz with rfl | hz2
      · exact Nat.le_of_lt hc
      · exact hy z hz2
    · simp only [insertDesc, if_neg hc]
      refine List.pairwise_cons.mpr ⟨?_, h⟩
      intro z hz
      rcases List.mem_cons.mp hz with rfl | hz2
      · exact Nat.le_of_not_lt hc
      · exact Nat.le_trans (hy z hz2) (Nat.le_of_not_lt hc)

theorem sortByScoreDesc_sorted (l : List (String × Nat)) :
    ScoreSorted (sortByScoreDesc l) := by
  induction l with
  | nil => simp [sortByScoreDesc, ScoreSorted]
  | cons x xs ih => exact insertDesc_sorted ih

theorem length_insertDesc (x : String × Nat) (l : List (String × Nat)) :
    (insertDesc x l).length = l.length + 1 := by
  induction l with
  | nil => simp [insertDesc]
  | cons y ys ih =>
    by_cases hc : x.2 < y.2
    · simp [insertDesc, if_pos hc, ih]
    · simp [insertDesc, if_neg hc]

theorem length_sortByScoreDesc (l : List (String × Nat)) :
    (sortByScoreDesc l).length = l.length := by
  induction l with
  | nil => rfl
  | cons x xs ih => simp [sortByScoreDesc, length_insertDesc, ih]

/-- Scores of zero never pass the positivity filter, so inserting a
zero-scored element and then filtering is the same as filtering alone. -/
theorem filter_insertDesc_zero (x : String × Nat) (l : List (String × Nat))
    (hx : x.2 = 0) :
    (insertDesc x l).filter (fun it => decide (0 < it.2)) =
      l.filter (fun it => decide (0 < it.2)) := by
  induction l with
  | nil => simp [insertDesc, hx]
  | cons y ys ih =>
    by_cases hc : x.2 < y.2
    · simp only [insertDesc, if_pos hc, List.filter_cons]
      rw [ih]
    · have hy0 : y.2 = 0 := by omega
      simp only [insertDesc, if_neg hc]
      simp [List.filter_cons, hx, hy0]

/-- On a descending-sorted list, inserting a positive-scored element commutes
with the positivity filter. -/
theorem filter_insertDesc_pos (x : String × Nat) (l : List (String × Nat))
    (hl : ScoreSorted l) (hx : 0 < x.2) :
    (insertDesc x l).filter (fun it => decide (0 < it.2)) =
      insertDesc x (l.filter (fun it => decide (0 < it.2))) := by
  induction l with
  | nil => simp [insertDesc, hx]
  | cons y ys ih =>
    rcases List.pairwise_cons.mp hl with ⟨hy, hys⟩
    by_cases hc : x.2 < y.2
    · have hypos : 0 < y.2 := Nat.lt_trans hx hc
      simp only [insertDesc, if_pos hc, List.filter_cons, decide_eq_true_eq]
      rw [if_pos hypos, if_pos hypos, ih hys, insertDesc, if_pos hc]
    · by_cases hyp : 0 < y.2
      · simp only [insertDesc, if_neg hc, List.filter_cons, decide_eq_true_eq]
        rw [if_pos hyp, if_pos hx, insertDesc, if_neg hc]
      · have hy0 : y.2 = 0 := Nat.eq_zero_of_not_pos hyp
        have hys0 : ys.filter (fun it => decide (0 < it.2)) = [] := by
          apply List.filter_eq_nil_iff.mpr
          intro z hz
          have := hy z hz
          simp only [decide_eq_true_eq]
          omega
        simp only [insertDesc, if_neg hc, List.filter_cons, decide_eq_true_eq]
        rw [if_pos hx, if_neg hyp, hys0, insertDesc]

/-- The positivity filter commutes with the stable descending sort. -/
theorem filter_sortByScoreDesc (l : List (String × Nat)) :
    (sortByScoreDesc l).filter (fun it => decide (0 < it.2)) =
      sortByScoreDesc (l.filter (fun it => decide (0 < it.2))) := by
  induction l with
  | nil => rfl
  | cons x xs ih =>
    by_cases hx : 0 < x.2
    · rw [sortByScoreDesc, filter_insertDesc_pos x _ (sortByScoreDesc_sorted xs) hx,
        ih, List.filter_cons, if_pos (by simpa using hx), sortByScoreDesc]
    · have hx0 : x.2 = 0 := Nat.eq_zero_of_not_pos hx
      rw [sortByScoreDesc, filter_insertDesc_zero x _ hx0, ih, List.filter_cons,
        if_neg (by simpa using hx)]

/-! ## Data models (src/models/data_models.py) -/

/-- One role-tagged message fragment (the `{"role": ..., "content": ...}`
dict shape used throughout, and the `ChatMessage.to_dict()` image). -/
structure Msg where
  role : String
  content : String
deriving DecidableEq, Repr

/-- ChatResponse dataclass. -/
structure ChatResponse where
  content : String
  user_id : String
  agent_id : Option String := none
  session_id : Option String := none
  memory_used : Bool := false
  memories_count : Nat := 0
  collaborators : List String := []
  error : Option String := none
deriving DecidableEq, Repr

/-- ContextPayload dataclass. -/
structure ContextPayload where
  messages : List Msg
  memory_used : Bool
  memories_count : Nat
  agent_id : String
  session_id : String
  collaborators : List String
deriving DecidableEq, Repr

/-- SpecialistResult dataclass. -/
structure SpecialistResult where
  agent_id : String
  content : String
deriving DecidableEq, Repr

/-- MultiAgentResult dataclass. -/
structure MultiAgentResult where
  project_summary : String
  selected_agents : List String
  specialist_outputs : List SpecialistResult
  final_response : ChatResponse
deriving DecidableEq, Repr

/-! ## Configuration (src/config/settings.py)

An agent profile is a Python dict; every key that any `.get` in the core
reads is modelled as an optional field (`role`, `instruction`, `domain` and
`expert_domain` are read by the context engine but set by no profile in
`Config.AGENT_PROFILES`, only by the fallback config dict). -/

structure AgentProfile where
  name : Option String := none
  description : Option String := none
  style : Option String := none
  type : Option String := none
  expertise_keywords : Option (List String) := none
  collaborators : Option (List String) := none
  instructions : Option String := none
  role : Option String := none
  instruction : Option String := none
  domain : Option String := none
  expert_domain : Option String := none
deriving DecidableEq, Repr

namespace Config

def PROJECT_BRAIN_ID : String := "project_brain"

def DEFAULT_USER_ID : String := "default_user"

def DEFAULT_AGENT_ID : String := "project_brain"

def DEFAULT_SESSION_ID : String := "default_session"

def CONVERSATION_CACHE_SIZE : Nat := 5

def MEMORY_SEARCH_LIMIT : Nat := 5

/-- CONTEXT_PIPELINE["max_history_messages"]. -/
def maxHistoryMessages : Int := 8

/-- CONTEXT_PIPELINE["max_collaborators"]. -/
def maxCollaborators : Nat := 5

/-- MULTI_AGENT_PIPELINE["max_specialists"]. -/
def maxSpecialists : Nat := 3

/-- MULTI_AGENT_PIPELINE["fallback_specialists"]. -/
def fallbackSpecialists : List String := ["product_lead", "solution_architect"]

/-- AGENT_PROFILES, in dict insertion order.  The long instruction blocks are
kept verbatim only where some claim can observe them (prompt text); they are
reproduced in full for faithfulness. -/
def AGENT_PROFILES : List (String × AgentProfile) :=
  [ ("project_brain",
     { name := some "项目大脑"
       description := some "AI 项目管理总监，负责拆解需求、统筹资源、跟踪进度、整合专家意见。"
       style := some "战略、条理清晰、强调依赖关系与风险、注重整体协调。"
       type := some "orchestrator"
       expertise_keywords := some ["项目", "排期", "资源", "里程碑", "协调", "整合", "管理"]
       collaborators := some ["product_lead", "algo_scientist", "solution_architect"]
       instructions := some ("1. 分析项目需求并确定核心目标\n2. 识别关键风险点和依赖关系\n3. 根据需求特点选择合适的专家团队\n4. 协调各专家提供专业意见\n5. 整合所有输入形成结构化的项目方案\n6. 明确责任分工和时间节点\n7. 持续跟踪项目进展并及时调整策略\n\n作为项目大脑，你存储整个项目的所有记忆，并负责整合专家知识为用户提供全面解答。") }),
    ("product_lead",
     { name := some "产品负责人"
       description := some "专注于用户需求分析、产品规划、功能设计和用户体验优化的产品专家。"
       style := some "以用户为中心，强调价值与交付范围，注重实用性和可落地性。"
       type := some "specialist"
       expertise_keywords := some ["需求", "用户", "功能", "体验", "交互", "产品规划", "市场", "价值"]
       collaborators := some []
       instructions := some ("1. 深入分析用户需求，识别核心价值点\n2. 定义产品功能边界和优先级排序\n3. 设计用户友好的交互流程和体验\n4. 制定产品路线图和迭代计划\n5. 明确成功指标和验收标准\n6. 识别潜在的用户痛点和解决方案\n7. 提供产品差异化建议和竞争优势分析\n\n作为产品专家，你专注于存储和应用产品相关知识，包括需求分析、用户研究、功能规划等领域的专业内容。") }),
    ("algo_scientist",
     { name := some "算法专家"
       description := some "精通机器学习、深度学习等AI技术，专注于算法选型、模型设计和性能优化的技术专家。"
       style := some "严谨、逻辑清晰、注重技术可行性和性能指标，能够将复杂问题简化。"
       type := some "specialist"
       expertise_keywords := some ["模型", "算法", "训练", "数据", "评估", "优化", "AI", "机器学习"]
       collaborators := some []
       instructions := some ("1. 分析问题的技术本质和算法需求\n2. 提供多种算法方案的比较和选型建议\n3. 明确所需数据类型、规模和质量要求\n4. 评估模型复杂度和算力需求\n5. 预测性能瓶颈和优化方向\n6. 设计实验方案和评估指标\n7. 分析技术风险并提出缓解策略\n\n作为算法专家，你专注于存储和应用算法相关知识，包括各类算法原理、模型架构、训练方法、评估指标等专业内容。") }),
    ("solution_architect",
     { name := some "解决方案架构师"
       description := some "负责系统整体架构设计、技术选型、集成方案和落地路径规划的架构专家。"
       style := some "注重全链路设计，强调接口、部署与运维，平衡技术先进性和落地可行性。"
       type := some "specialist"
       expertise_keywords := some ["架构", "集成", "交付", "部署", "API", "系统", "组件", "扩展性"]
       collaborators := some []
       instructions := some ("1. 设计端到端的技术架构和系统组件\n2. 明确技术栈选型和各组件职责边界\n3. 制定接口规范和集成策略\n4. 规划部署架构和资源需求\n5. 设计数据流转和存储方案\n6. 评估系统性能、安全和扩展性\n7. 提供成本估算和风险管控措施\n\n作为解决方案架构师，你专注于存储和应用架构相关知识，包括系统设计、技术选型、集成方案、部署规划等专业内容。") })
  ]

end Config

/-- Dict lookup `AGENT_PROFILES.get(agent_id)` as an option. -/
def lookupProfile (agent_id : String) : Option AgentProfile :=
  (Config.AGENT_PROFILES.find? (fun pr => pr.1 == agent_id)).map Prod.snd

/-- Python `agent_id in Config.AGENT_PROFILES`. -/
def isProfileKey (agent_id : String) : Bool :=
  (lookupProfile agent_id).isSome

/-! ## Agent Selector (src/core/agent_controller.py, AgentSelector) -/

/-- Keyword-relevance score of one profile against the lowered message:
`sum(lowered.count(keyword.lower()) for keyword in keywords)`. -/
def profileScore (lowered : String) (p : AgentProfile) : Nat :=
  (p.expertise_keywords.getD []).foldl
    (fun acc kw => acc + pyCount lowered (pyLower kw)) 0

/-- The scored candidate list built by `select_specialists`: every profile of
kind specialist, in dict encounter order, paired with its score. -/
def scoredSpecialists (profiles : List (String × AgentProfile))
    (message : String) : List (String × Nat) :=
  let lowered := pyLower message
  profiles.filterMap (fun pr =>
    if pr.2.type = some "specialist" then some (pr.1, profileScore lowered pr.2)
    else none)

/-- AgentSelector.select_specialists: score all specialist profiles, stable
sort by descending score, keep positive scores, truncate to the cap, and fall
back to the configured list when the result is empty. -/
def selectSpecialists (profiles : List (String × AgentProfile))
    (maxSpecialists : Nat) (fallback : List String) (message : String) :
    List String :=
  let scored := scoredSpecialists profiles message
  let sorted := sortByScoreDesc scored
  let selected :=
    ((sorted.filter (fun it => decide (0 < it.2))).map Prod.fst).take maxSpecialists
  if selected.isEmpty then fallback.take maxSpecialists else selected

/-- The claim C2 reading of the selection algorithm, written from the spec:
keep exactly the positive-scoring specialists, stable-sort them by descending
score (ties in encounter order), truncate to the cap, and return the
truncated fallback list exactly when no specialist scores positive. -/
def selectSpecialistsSpec (profiles : List (String × AgentProfile))
    (maxSpecialists : Nat) (fallback : List String) (message : String) :
    List String :=
  let positive :=
    (scoredSpecialists profiles message).filter (fun it => decide (0 < it.2))
  if positive.isEmpty then fallback.take maxSpecialists
  else ((sortByScoreDesc positive).map Prod.fst).take maxSpecialists

/-- The code and the spec reading agree on every profile table, cap, fallback
list and message. -/
theorem selectSpecialists_eq_spec (profiles : List (String × AgentProfile))
    (cap : Nat) (fallback : List String) (message : String) :
    selectSpecialists profiles cap fallback message =
      selectSpecialistsSpec profiles cap fallback message := by
  unfold selectSpecialists selectSpecialistsSpec
  simp only [filter_sortByScoreDesc]
  set positive :=
    (scoredSpecialists profiles message).filter (fun it => decide (0 < it.2))
    with hpos
  by_cases hempty : positive.isEmpty
  · rw [List.isEmpty_iff] at hempty
    simp [hempty, sortByScoreDesc]
  · rw [if_neg hempty]
    have hlen : positive.length ≠ 0 := by
      intro h
      exact hempty (List.isEmpty_iff.mpr (List.length_eq_zero.mp h))
    by_cases hcap : cap = 0
    · subst hcap
      simp
    · rw [if_neg ?hne]
      case hne =>
        intro habs
        rw [List.isEmpty_iff, List.take_eq_nil_iff] at habs
        rcases habs with h0 | h0
        · exact hcap h0
        · rw [List.map_eq_nil_iff] at h0
          have hlen2 := congrArg List.length h0
          rw [length_sortByScoreDesc] at hlen2
          exact hlen hlen2

/-- C2: for every message string, `select_specialists` returns exactly the
profiles of kind specialist whose keyword score is positive, sorted by score
descending with ties in profile-table encounter order, truncated to the
configured cap, and returns the configured fallback list truncated to the
same cap exactly when no specialist scores positive (in particular on the
empty message). -/
theorem C2_selectSpecialists_matches_spec (message : String) :
    selectSpecialists Config.AGENT_PROFILES Config.maxSpecialists
        Config.fallbackSpecialists message =
      selectSpecialistsSpec Config.AGENT_PROFILES Config.maxSpecialists
        Config.fallbackSpecialists message :=
  selectSpecialists_eq_spec Config.AGENT_PROFILES Config.maxSpecialists
    Config.fallbackSpecialists message

/-! ## Conversation Cache (src/models/data_models.py, ConversationCache)

The per-user dict of bounded deques is modelled as a total buffer table from
user id to message list; a missing key denotes the empty buffer that
`get_user_cache` would create on demand (the Python lookup inserts an empty
deque as a side effect, which changes no buffer content and is therefore not
tracked). -/

/-- ConversationCache state: `max_size` plus the per-user buffers. -/
structure ConversationCache where
  max_size : Nat
  buffers : String → List Msg

/-- ConversationCache(max_size), with every buffer empty. -/
def ConversationCache.init (max_size : Nat) : ConversationCache :=
  { max_size := max_size, buffers := fun _ => [] }

/-- add_message: append to the user deque; at capacity the deque `maxlen`
drops the oldest entry, so the buffer is always the last `max_size` elements
of everything appended so far. -/
def ConversationCache.add_message (c : ConversationCache) (user_id : String)
    (message : Msg) : ConversationCache :=
  { c with buffers := fun u =>
      if u = user_id then pyTakeLast c.max_size (c.buffers user_id ++ [message])
      else c.buffers u }

/-- get_messages: the whole buffer, oldest first. -/
def ConversationCache.get_messages (c : ConversationCache) (user_id : String) :
    List Msg :=
  c.buffers user_id

/-- get_recent_messages: all messages when the limit is `None` or not
positive, otherwise the last `limit` messages (`messages[-limit:]`). -/
def ConversationCache.get_recent_messages (c : ConversationCache)
    (user_id : String) (limit : Option Int) : List Msg :=
  let messages := c.get_messages user_id
  match limit with
  | none => messages
  | some l => if l ≤ 0 then messages else pyTakeLast l.toNat messages

/-- clear: empty one user buffer, leaving the other users untouched. -/
def ConversationCache.clear (c : ConversationCache) (user_id : String) :
    ConversationCache :=
  { c with buffers := fun u => if u = user_id then [] else c.buffers u }

/-- Appending a whole list of messages for one user, in order. -/
def ConversationCache.addAll (c : ConversationCache) (user_id : String)
    (msgs : List Msg) : ConversationCache :=
  msgs.foldl (fun acc m => acc.add_message user_id m) c

theorem pyTakeLast_all {l : List α} (h : l.length ≤ n) : pyTakeLast n l = l := by
  unfold pyTakeLast
  rw [Nat.sub_eq_zero_of_le h, List.drop_zero]

theorem pyTakeLast_length (n : Nat) (l : List α) :
    (pyTakeLast n l).length = min n l.length := by
  unfold pyTakeLast
  rw [List.length_drop]
  omega

/-- Retention of the last `n` elements is idempotent under appending: cutting
to the window, appending, and cutting again is the same as cutting the full
appended list. -/
theorem pyTakeLast_append_pyTakeLast (n : Nat) (l l2 : List α) :
    pyTakeLast n (pyTakeLast n l ++ l2) = pyTakeLast n (l ++ l2) := by
  unfold pyTakeLast
  rw [List.drop_append_eq_append_drop, List.drop_append_eq_append_drop,
    List.drop_drop]
  simp only [List.length_append, List.length_drop]
  congr 1
  · congr 1
    omega
  · congr 1
    omega

/-- Nested retention windows compose to the smaller window. -/
theorem pyTakeLast_pyTakeLast (m n : Nat) (l : List α) :
    pyTakeLast m (pyTakeLast n l) = pyTakeLast (min m n) l := by
  unfold pyTakeLast
  rw [List.drop_drop, List.length_drop]
  congr 1
  omega

theorem add_message_max_size (c : ConversationCache) (u : String) (m : Msg) :
    (c.add_message u m).max_size = c.max_size := rfl

/-- After folding any message sequence into a cache whose target buffer is
within capacity, the target user buffer holds exactly the last `max_size`
elements of the previous content followed by the appended sequence, oldest
first. -/
theorem buffers_addAll (c : ConversationCache) (user : String)
    (msgs : List Msg) (h : (c.buffers user).length ≤ c.max_size) :
    (c.addAll user msgs).buffers user =
      pyTakeLast c.max_size (c.buffers user ++ msgs) := by
  induction msgs generalizing c with
  | nil =>
    simp only [ConversationCache.addAll, List.foldl_nil, List.append_nil]
    rw [pyTakeLast_all h]
  | cons m rest ih =>
    simp only [ConversationCache.addAll, List.foldl_cons]
    have hbuf : (c.add_message user m).buffers user =
        pyTakeLast c.max_size (c.buffers user ++ [m]) := by
      simp [ConversationCache.add_message]
    have hle : ((c.add_message user m).buffers user).length ≤
        (c.add_message user m).max_size := by
      rw [hbuf, add_message_max_size, pyTakeLast_length]
      omega
    have hstep := ih (c.add_message user m) hle
    simp only [ConversationCache.addAll] at hstep
    rw [hstep, add_message_max_size, hbuf, pyTakeLast_append_pyTakeLast,
      List.append_assoc]
    rfl

/-- Folding a message sequence into an empty cache leaves exactly the last
`max_size` appended messages in the user buffer. -/
theorem buffers_addAll_init (cap : Nat) (user : String) (msgs : List Msg) :
    ((ConversationCache.init cap).addAll user msgs).buffers user =
      pyTakeLast cap msgs := by
  rw [buffers_addAll _ _ _ (by simp [ConversationCache.init])]
  rfl

/-- C7 amended: for every user id and sequence of more than `capacity`
appended messages, `get_recent_messages` with no limit (`None` or a limit
that is not positive) returns exactly the last `capacity` messages in their
original relative order, and a positive limit returns the last
`min limit capacity` messages in the same order (all held messages when the
limit exceeds the capacity, not the last `limit` appends). -/
theorem C7_cache_ring_buffer (user : String) (cap : Nat) (msgs : List Msg)
    (l : Int) (_hN : cap < msgs.length) (hl : 0 < l) :
    ((ConversationCache.init cap).addAll user msgs).get_recent_messages
        user none = pyTakeLast cap msgs ∧
    (∀ l0 : Int, l0 ≤ 0 →
      ((ConversationCache.init cap).addAll user msgs).get_recent_messages
        user (some l0) = pyTakeLast cap msgs) ∧
    ((ConversationCache.init cap).addAll user msgs).get_recent_messages
        user (some l) = pyTakeLast (min l.toNat cap) msgs := by
  have hbuf := buffers_addAll_init cap user msgs
  refine ⟨?_, ?_, ?_⟩
  · simp only [ConversationCache.get_recent_messages,
      ConversationCache.get_messages]
    exact hbuf
  · intro l0 hl0
    simp only [ConversationCache.get_recent_messages,
      ConversationCache.get_messages, if_pos hl0]
    exact hbuf
  · simp only [ConversationCache.get_recent_messages,
      ConversationCache.get_messages, if_neg (Int.not_le.mpr hl)]
    rw [hbuf, pyTakeLast_pyTakeLast]

/-- Witness for C7: six messages into a capacity-5 cache, limit 3; the
no-limit read returns the last five messages and the limited read the last
three. -/
theorem C7_cache_ring_buffer_witness :
    ((ConversationCache.init 5).addAll "u"
        [⟨"user", "m1"⟩, ⟨"assistant", "m2"⟩, ⟨"user", "m3"⟩,
         ⟨"assistant", "m4"⟩, ⟨"user", "m5"⟩, ⟨"assistant", "m6"⟩]).get_recent_messages
        "u" none =
      pyTakeLast 5
        [⟨"user", "m1"⟩, ⟨"assistant", "m2"⟩, ⟨"user", "m3"⟩,
         ⟨"assistant", "m4"⟩, ⟨"user", "m5"⟩, ⟨"assistant", "m6"⟩] ∧
    (∀ l0 : Int, l0 ≤ 0 →
      ((ConversationCache.init 5).addAll "u"
        [⟨"user", "m1"⟩, ⟨"assistant", "m2"⟩, ⟨"user", "m3"⟩,
         ⟨"assistant", "m4"⟩, ⟨"user", "m5"⟩, ⟨"assistant", "m6"⟩]).get_recent_messages
        "u" (some l0) =
      pyTakeLast 5
        [⟨"user", "m1"⟩, ⟨"assistant", "m2"⟩, ⟨"user", "m3"⟩,
         ⟨"assistant", "m4"⟩, ⟨"user", "m5"⟩, ⟨"assistant", "m6"⟩]) ∧
    ((ConversationCache.init 5).addAll "u"
        [⟨"user", "m1"⟩, ⟨"assistant", "m2"⟩, ⟨"user", "m3"⟩,
         ⟨"assistant", "m4"⟩, ⟨"user", "m5"⟩, ⟨"assistant", "m6"⟩]).get_recent_messages
        "u" (some 3) =
      pyTakeLast (min (Int.toNat 3) 5)
        [⟨"user", "m1"⟩, ⟨"assistant", "m2"⟩, ⟨"user", "m3"⟩,
         ⟨"assistant", "m4"⟩, ⟨"user", "m5"⟩, ⟨"assistant", "m6"⟩] :=
  C7_cache_ring_buffer "u" 5 _ 3 (by decide) (by decide)

/-- Counterexample for C7 as stated: after six appends into a capacity-5
cache, a positive limit of 6 returns only the five held messages, not the
last six appended messages that the claim promises. -/
theorem C7_cache_counterexample :
    ((ConversationCache.init 5).addAll "u"
        [⟨"user", "m1"⟩, ⟨"assistant", "m2"⟩, ⟨"user", "m3"⟩,
         ⟨"assistant", "m4"⟩, ⟨"user", "m5"⟩, ⟨"assistant", "m6"⟩]).get_recent_messages
        "u" (some 6) =
      [⟨"assistant", "m2"⟩, ⟨"user", "m3"⟩, ⟨"assistant", "m4"⟩,
       ⟨"user", "m5"⟩, ⟨"assistant", "m6"⟩] ∧
    ([⟨"assistant", "m2"⟩, ⟨"user", "m3"⟩, ⟨"assistant", "m4"⟩,
      ⟨"user", "m5"⟩, ⟨"assistant", "m6"⟩] : List Msg) ≠
      [⟨"user", "m1"⟩, ⟨"assistant", "m2"⟩, ⟨"user", "m3"⟩,
       ⟨"assistant", "m4"⟩, ⟨"user", "m5"⟩, ⟨"assistant", "m6"⟩] := by
  exact ⟨by decide, by decide⟩

/-! ## Memory Gateway (src/core/memory_manager.py)

Only the write path is needed by the claims.  A write against the external
mem0 store is recorded as an `AddCall`; the `addOk` oracle says whether the
underlying `memory.add` raises.  Search results are consumed through the
context-engine oracles instead (every read path of the gateway catches its
own failures and normalizes its result). -/

/-- Capability flags probed at construction (`_detect_capabilities`). -/
structure Capabilities where
  search_agent : Bool
  search_session : Bool
  add_agent : Bool
  add_session : Bool
  get_all_agent : Bool
  get_all_session : Bool
deriving DecidableEq, Repr

/-- Metadata dict attached by `_store_memory` to every stored fragment. -/
structure StoreMetadata where
  role : String
  user_id : String
  agent_id : Option String
  session_id : Option String
  memory_type : String
  is_project_memory : Bool := false
  is_expert_memory : Bool := false
  expert_domain : Option String := none
deriving DecidableEq, Repr

/-- One attempted `memory.add` invocation: the enriched form used first, or
the simplified single-field form used by the fallback retry.  `agent_id` and
`session_id` are the keyword parameters actually passed (omitted filters are
`none`). -/
inductive AddCall where
  | full (texts : List (String × StoreMetadata)) (user_id : String)
      (agent_id : Option String) (session_id : Option String)
  | simple (text : String) (memory_type : String) (meta_agent_id : Option String)
      (user_id : String) (agent_id : Option String) (session_id : Option String)
deriving DecidableEq, Repr

/-- The `agent_id` keyword parameter of an attempted add. -/
def AddCall.agentParam : AddCall → Option String
  | .full _ _ a _ => a
  | .simple _ _ _ _ a _ => a

/-- The metadata `memory_type` tag of the first stored fragment (the scope
tag of the record; the simplified fallback form stores it directly). -/
def AddCall.scopeTag : AddCall → Option String
  | .full texts _ _ _ => (texts.head?.map (fun t => t.2.memory_type))
  | .simple _ mt _ _ _ _ => some mt

/-- The metadata `expert_domain` tag of the first stored fragment. -/
def AddCall.domainTag : AddCall → Option String
  | .full texts _ _ _ => ((texts.head?.map (fun t => t.2.expert_domain)).getD none)
  | .simple _ _ _ _ _ _ => none

/-- The hardcoded id-to-domain mapping of `_store_memory`. -/
def expertDomainOf (agent_id : Option String) : Option String :=
  if agent_id = some "product_lead" then some "product"
  else if agent_id = some "algo_scientist" then some "algorithm"
  else if agent_id = some "solution_architect" then some "architecture"
  else none

/-- The `agent_id` keyword parameter passed by `_store_memory`
(`if agent_id: params["agent_id"] = agent_id`). -/
def storeParamsAgent (agent_id : Option String) : Option String :=
  if optTruthy agent_id then agent_id else none

/-- The `session_id` keyword parameter passed by `_store_memory`
(`if session_id and self.capabilities["add_session"]`). -/
def storeParamsSession (caps : Capabilities) (session_id : Option String) :
    Option String :=
  if optTruthy session_id && caps.add_session then session_id else none

/-- The metadata dict built by `_store_memory`: caller parameters plus the
agent-derived enrichment (`memory_type` is the caller parameter, never
derived from the role id here). -/
def storeMemoryMeta (user_id : String) (agent_id : Option String)
    (session_id : Option String) (memory_type : String) : StoreMetadata :=
  let base : StoreMetadata :=
    { role := "user", user_id := user_id, agent_id := agent_id,
      session_id := session_id, memory_type := memory_type }
  if agent_id = some "project_brain" then
    { base with is_project_memory := true }
  else if (agent_id.map isProfileKey).getD false then
    { base with
      is_expert_memory := true
      expert_domain := expertDomainOf agent_id }
  else base

/-- The primary (enriched) add attempted by `_store_memory`; the
single-message and multi-message branches enrich fragments identically, so
they are modelled uniformly. -/
def storePrimaryCall (caps : Capabilities) (messages : List Msg)
    (user_id : String) (agent_id : Option String)
    (session_id : Option String) (memory_type : String) : AddCall :=
  AddCall.full
    (messages.map (fun m =>
      (m.content,
        { storeMemoryMeta user_id agent_id session_id memory_type with
          role := m.role })))
    user_id (storeParamsAgent agent_id) (storeParamsSession caps session_id)

/-- The simplified add attempted by the fallback retry of `_store_memory`. -/
def storeFallbackCall (caps : Capabilities) (messages : List Msg)
    (user_id : String) (agent_id : Option String)
    (session_id : Option String) (memory_type : String) : AddCall :=
  AddCall.simple
    (String.intercalate " " (messages.map (fun m => m.content)))
    memory_type agent_id user_id (storeParamsAgent agent_id)
    (storeParamsSession caps session_id)

/-- MemoryManager._store_memory.  Returns the reported success flag and the
list of attempted `memory.add` calls, in order.  When the primary add
raises, the simplified fallback add is still attempted, but the success log
line then reads the local variable `scope` that was never assigned, so the
fallback branch always reports failure. -/
def storeMemoryCore (caps : Capabilities) (addOk : AddCall → Bool)
    (messages : List Msg) (user_id : String) (agent_id : Option String)
    (session_id : Option String) (memory_type : String) :
    Bool × List AddCall :=
  let primary := storePrimaryCall caps messages user_id agent_id session_id
    memory_type
  if addOk primary then (true, [primary])
  else
    (false,
     [primary,
      storeFallbackCall caps messages user_id agent_id session_id memory_type])

/-- The `final_memory_type` defaulting of `add_conversation`: the empty
string models a falsy `memory_type` argument (the Python default value
"general" is truthy, so the derivation only applies to an explicitly falsy
argument). -/
def finalMemoryType (agent_id : Option String) (memory_type : String) : String :=
  if memory_type = "" then
    if agent_id = some "project_brain" then "project"
    else if (agent_id.map isProfileKey).getD false then "expert"
    else "user"
  else memory_type

/-- MemoryManager.add_conversation: always stores the user-scoped copy (no
agent keyword); when an agent id is given and the store supports
agent-scoping, additionally stores the agent-scoped copy. -/
def add_conversation (caps : Capabilities) (addOk : AddCall → Bool)
    (messages : List Msg) (user_id : String)
    (agent_id : Option String := none) (session_id : Option String := none)
    (memory_type : String := "general") : Bool × List AddCall :=
  let ft := finalMemoryType agent_id memory_type
  let r1 := storeMemoryCore caps addOk messages user_id none session_id ft
  if optTruthy agent_id && caps.add_agent then
    let r2 := storeMemoryCore caps addOk messages user_id agent_id session_id ft
    (r1.1 || r2.1, r1.2 ++ r2.2)
  else r1

/-- MemoryManager.store_memory (public): wraps the content as one assistant
message and performs a single `_store_memory` call with the given agent id;
the extra `metadata` argument of the Python method is only logged, never
stored, so it does not appear here. -/
def store_memory (caps : Capabilities) (addOk : AddCall → Bool)
    (content : String) (user_id : String)
    (agent_id : Option String := none) (session_id : Option String := none)
    (memory_type : String := "general") : Bool × List AddCall :=
  storeMemoryCore caps addOk [⟨"assistant", content⟩] user_id agent_id
    session_id memory_type

/-- A fully capable store. -/
def allCaps : Capabilities :=
  { search_agent := true, search_session := true, add_agent := true,
    add_session := true, get_all_agent := true, get_all_session := true }

theorem storeMemoryCore_agentParam (caps : Capabilities)
    (addOk : AddCall → Bool) (messages : List Msg) (user_id : String)
    (agent_id : Option String) (session_id : Option String)
    (memory_type : String) :
    ∀ c ∈ (storeMemoryCore caps addOk messages user_id agent_id session_id
        memory_type).2,
      c.agentParam = (if optTruthy agent_id then agent_id else none) := by
  intro c hc
  unfold storeMemoryCore at hc
  by_cases hOk : addOk (storePrimaryCall caps messages user_id agent_id
      session_id memory_type)
  · rw [if_pos hOk] at hc
    simp only [List.mem_singleton] at hc
    subst hc
    rfl
  · rw [if_neg hOk] at hc
    simp only [List.mem_cons, List.not_mem_nil, or_false] at hc
    rcases hc with rfl | rfl <;> rfl

/-- C6 amended: `add_conversation` always performs the user-scoped write
first (its attempted adds carry no `agent_id` parameter) and performs the
additional role-scoped write exactly when a role id is given and the store
supports role-scoping; the public `store_memory`, however, performs a single
write whose attempted adds all carry the given role id directly (no
capability check and no accompanying user-scoped copy). -/
theorem C6_gateway_write_paths (caps : Capabilities) (addOk : AddCall → Bool)
    (messages : List Msg) (content : String) (user_id : String)
    (agent_id : Option String) (session_id : Option String)
    (memory_type : String) :
    (∀ c ∈ (storeMemoryCore caps addOk messages user_id none session_id
        (finalMemoryType agent_id memory_type)).2, c.agentParam = none) ∧
    ((add_conversation caps addOk messages user_id agent_id session_id
        memory_type).2 =
      (storeMemoryCore caps addOk messages user_id none session_id
        (finalMemoryType agent_id memory_type)).2 ++
      (if optTruthy agent_id && caps.add_agent then
        (storeMemoryCore caps addOk messages user_id agent_id session_id
          (finalMemoryType agent_id memory_type)).2
       else [])) ∧
    (∀ c ∈ (store_memory caps addOk content user_id agent_id session_id
        memory_type).2,
      c.agentParam = (if optTruthy agent_id then agent_id else none)) := by
  refine ⟨?_, ?_, ?_⟩
  · have h := storeMemoryCore_agentParam caps addOk messages user_id none
      session_id (finalMemoryType agent_id memory_type)
    simpa [optTruthy] using h
  · unfold add_conversation
    by_cases hcond : optTruthy agent_id && caps.add_agent
    · simp [hcond]
    · simp [hcond]
  · exact storeMemoryCore_agentParam caps addOk [⟨"assistant", content⟩]
      user_id agent_id session_id memory_type

/-- Witness for C6 amended: a concrete `add_conversation` and `store_memory`
run against a fully capable store that accepts every add. -/
theorem C6_gateway_write_paths_witness :
    (∀ c ∈ (storeMemoryCore allCaps (fun _ => true) [⟨"user", "你好"⟩] "u1"
        none (some "s1") (finalMemoryType (some "algo_scientist") "expert")).2,
      c.agentParam = none) ∧
    ((add_conversation allCaps (fun _ => true) [⟨"user", "你好"⟩] "u1"
        (some "algo_scientist") (some "s1") "expert").2 =
      (storeMemoryCore allCaps (fun _ => true) [⟨"user", "你好"⟩] "u1" none
        (some "s1") (finalMemoryType (some "algo_scientist") "expert")).2 ++
      (if optTruthy (some "algo_scientist") && allCaps.add_agent then
        (storeMemoryCore allCaps (fun _ => true) [⟨"user", "你好"⟩] "u1"
          (some "algo_scientist") (some "s1")
          (finalMemoryType (some "algo_scientist") "expert")).2
       else [])) ∧
    (∀ c ∈ (store_memory allCaps (fun _ => true) "记录" "u1"
        (some "algo_scientist") (some "s1") "expert").2,
      c.agentParam =
        (if optTruthy (some "algo_scientist") then some "algo_scientist"
         else none)) :=
  C6_gateway_write_paths allCaps (fun _ => true) [⟨"user", "你好"⟩] "记录"
    "u1" (some "algo_scientist") (some "s1") "expert"

/-- Counterexample for C6 as stated: a `store_memory` write through the
gateway with a role id attempts exactly one add, and that add carries the
role id — no user-scoped (role-less) copy is stored. -/
theorem C6_gateway_counterexample :
    (store_memory allCaps (fun _ => true) "记录" "u1" (some "algo_scientist")
        (some "s1") "expert").2.length = 1 ∧
    ((store_memory allCaps (fun _ => true) "记录" "u1" (some "algo_scientist")
        (some "s1") "expert").2.all
      (fun c => c.agentParam == some "algo_scientist")) = true := by
  exact ⟨by decide, by decide⟩

/-! ## Context Orchestrator (src/core/context_engine.py)

`build_payload` mixes total computation with calls whose outcome depends on
the external memory store.  The helper functions with their own catch-all
handlers (`_compose_system_prompt`, `_get_user_memory_context`) always
return a string and are modelled as total; the helpers without one
(`_get_expert_memory_context`, `_get_project_memory_context`,
`_get_collaborative_context`) may propagate an exception and are modelled as
`Except`-valued oracles.  The outer try/except of `build_payload` is the
`buildPayload` wrapper around `buildPayloadBody`. -/

/-- The memory-metadata dict built by `MultiAgentController._call_agent`
(`{"memory_type": ..., "expert_domain": ...}`); `none` models both a missing
dict and the empty dict, which are equally falsy. -/
structure CtrlMetadata where
  memory_type : String
  expert_domain : Option String
deriving DecidableEq, Repr

/-- Outcomes of the memory-backed helper calls made while building one
payload. -/
structure OrcOracles where
  userMem : String
  expertMem : Except String String
  projectMem : Except String String
  collabMem : Except String String
deriving Repr

/-- ContextOrchestrator._get_agent_config: the profile, or the fallback
config dict (whose keys differ from the real profiles). -/
def getAgentConfig (agent_id : String) : AgentProfile :=
  (lookupProfile agent_id).getD
    { name := some agent_id
      role := some "智能助手"
      instruction := some "你是一个专业的AI助手，帮助用户解决问题。" }

/-- ContextOrchestrator._compose_system_prompt.  Its own try/except returns a
default prompt, but every step of the body is total, so the handler is
unreachable and the body is modelled directly. -/
def composeSystemPrompt (agent_id : String) (expert_domain : Option String)
    (memory_metadata : Option CtrlMetadata) : String :=
  let agent_config := getAgentConfig agent_id
  let agent_name := agent_config.name.getD agent_id
  let agent_role := agent_config.role.getD "智能助手"
  let p0 := ["你是" ++ agent_name ++ "，" ++ agent_role]
  let p1 := p0 ++
    (if optTruthy agent_config.instruction then [agent_config.instruction.getD ""]
     else [])
  let p2 := p1 ++
    (if optTruthy expert_domain then
      let d := expert_domain.getD ""
      ["\n## 专业领域", "你专注于" ++ d ++ "领域的专业知识。"] ++
      (if pyIn "product" (pyLower d) then
        ["\n## 回复准则", "- 注重用户体验和产品价值",
         "- 提供具体、可落地的产品建议", "- 考虑市场和商业价值"]
      else if pyIn "algorithm" (pyLower d) then
        ["\n## 回复准则", "- 注重算法的可行性和效率",
         "- 提供技术细节和实现思路", "- 考虑计算资源和性能优化"]
      else if pyIn "architecture" (pyLower d) then
        ["\n## 回复准则", "- 注重系统的可扩展性和稳定性",
         "- 提供整体架构设计和组件划分", "- 考虑技术栈选型和集成方案"]
      else [])
     else [])
  let p3 := p2 ++
    (match memory_metadata with
     | some meta =>
       if meta.memory_type = "expert" then
         ["\n## 记忆访问",
          "你可以访问特定领域的专家记忆，这些记忆可以帮助你提供更专业的回答。"]
       else if meta.memory_type = "project" then
         ["\n## 记忆访问", "你可以访问项目相关记忆，了解项目历史和上下文。"]
       else []
     | none => [])
  let p4 := p3 ++
    ["\n## 回复格式", "请提供结构化、条理清晰的回复，使用适当的标题和列表。"]
  String.intercalate "\n" p4

/-- One cached-history entry as handed to `build_payload`: a dict with
optional `role` and `content` keys, or a non-dict value. -/
inductive HistEntry where
  | dict (role : Option String) (content : Option String)
  | other (raw : String)
deriving DecidableEq, Repr

/-- ContextOrchestrator._trim_history: keep the last `max_history` entries
(everything when the window is not positive), drop non-dict entries, and
assign the default role `system` to dict entries without a role tag. -/
def trimHistory (max_history : Int) (cached_messages : List HistEntry) :
    List HistEntry :=
  let trimmed :=
    if max_history ≤ 0 then cached_messages
    else pyTakeLast max_history.toNat cached_messages
  trimmed.filterMap (fun e =>
    match e with
    | .dict none c => some (.dict (some "system") c)
    | .dict (some r) c => some (.dict (some r) c)
    | .other _ => none)

/-- The `role in msg and content in msg` check of the history loop in
`build_payload` (entries failing it are skipped with a console warning). -/
def histEntryToMsg : HistEntry → Option Msg
  | .dict (some r) (some c) => some ⟨r, c⟩
  | _ => none

/-- The net effect of `_trim_history` followed by the history loop of
`build_payload` on one raw entry: dict entries carrying content survive
(with the default role `system` when untagged), everything else is dropped. -/
def coerceHistEntry : HistEntry → Option Msg
  | .dict r (some c) => some ⟨r.getD "system", c⟩
  | _ => none

/-- The collaborator truncation of `build_payload`
(`if self.max_collaborators > 0`). -/
def truncCollaborators (collaborators : List String) : List String :=
  if 0 < Config.maxCollaborators then collaborators.take Config.maxCollaborators
  else collaborators

/-- The memory layer of `build_payload`: the always-attempted user lookup
followed by the expert or project lookup selected by `memory_type`. -/
def memContextStep (o : OrcOracles) (memory_type : Option String)
    (domain1 : Option String) (memory_context0 : String) :
    Except String String :=
  if (memory_type == some "expert") && optTruthy domain1 then
    match o.expertMem with
    | .ok em =>
      .ok (if em ≠ "" then
            memory_context0 ++ "专家领域相关记忆:\n" ++ em ++ "\n\n"
           else memory_context0)
    | .error e => .error e
  else if memory_type == some "project" then
    match o.projectMem with
    | .ok pm =>
      .ok (if pm ≠ "" then
            memory_context0 ++ "项目相关记忆:\n" ++ pm ++ "\n\n"
           else memory_context0)
    | .error e => .error e
  else .ok memory_context0

/-- The collaboration layer of `build_payload`: only the coordinating role
fans out (and its collaborator list is then overwritten with every other
profile key, untruncated); every other role keeps its truncated collaborator
list and an empty collaboration context. -/
def collabContextStep (o : OrcOracles) (agent_id : String)
    (collaborators1 : List String) : Except String (List String × String) :=
  if agent_id == "project_brain" then
    match o.collabMem with
    | .ok cc =>
      .ok ((Config.AGENT_PROFILES.map Prod.fst).filter
            (fun a => a ≠ "project_brain"), cc)
    | .error e => .error e
  else .ok (collaborators1, "")

/-- The final message-list assembly of `build_payload`: the system-layer
fragments, then the surviving history fragments, then the current user
message (always last). -/
def assembleMessages (system_fragments history_msgs : List Msg)
    (user_message : String) : List Msg :=
  system_fragments ++ (history_msgs ++ [(⟨"user", user_message⟩ : Msg)])

theorem assembleMessages_shape (system_fragments history_msgs : List Msg)
    (user_message : String) :
    ∃ pre, assembleMessages system_fragments history_msgs user_message =
      pre ++ (history_msgs ++ [(⟨"user", user_message⟩ : Msg)]) :=
  ⟨system_fragments, rfl⟩

/-- ContextOrchestrator.build_payload, the try-block body.  The final
validation loop of the source repairs messages lacking a role or content
field; every message appended here carries both by construction, so that
loop is the identity and is not modelled. -/
def buildPayloadBody (o : OrcOracles)
    (_user_id : String) (agent_id session_id user_message : String)
    (cached_messages : List HistEntry) (extra_context : Option String)
    (memory_type : Option String) (memory_metadata : Option CtrlMetadata)
    (expert_domain : Option String) : Except String ContextPayload :=
  let agent_config := getAgentConfig agent_id
  let domain0 := pyOrOpt expert_domain agent_config.domain
  let system_prompt := composeSystemPrompt agent_id domain0 memory_metadata
  let agent_profile := (lookupProfile agent_id).getD { name := some agent_id }
  let domain1 := pyOrOpt domain0 agent_profile.expert_domain
  let collaborators1 := truncCollaborators (agent_profile.collaborators.getD [])
  let memory_context0 :=
    if o.userMem ≠ "" then "用户记忆信息:\n" ++ o.userMem ++ "\n\n" else ""
  match memContextStep o memory_type domain1 memory_context0 with
  | .error e => .error e
  | .ok memory_context =>
    match collabContextStep o agent_id collaborators1 with
    | .error e => .error e
    | .ok rc =>
      let history_msgs :=
        (trimHistory Config.maxHistoryMessages cached_messages).filterMap
          histEntryToMsg
      let system_fragments :=
        (if system_prompt ≠ "" then [(⟨"system", system_prompt⟩ : Msg)] else []) ++
        (if memory_context ≠ "" then
          [(⟨"system", "<记忆上下文>\n" ++ memory_context ++ "</记忆上下文>"⟩ : Msg)]
         else []) ++
        (if rc.2 ≠ "" then
          [(⟨"system", "<协作上下文>\n" ++ rc.2 ++ "</协作上下文>"⟩ : Msg)]
         else []) ++
        (if optTruthy extra_context then
          [(⟨"system", extra_context.getD ""⟩ : Msg)]
         else [])
      .ok { messages := assembleMessages system_fragments history_msgs user_message
            memory_used := memory_context ≠ ""
            memories_count :=
              if memory_context ≠ "" then
                countSub "\n\n".toList memory_context.toList + 1
              else 0
            agent_id := agent_id
            session_id := session_id
            collaborators := rc.1 }

/-- The minimal two-fragment payload produced by the except handler of
`build_payload`. -/
def minimalPayload (agent_id session_id user_message : String) :
    ContextPayload :=
  { messages :=
      [⟨"system", "智能体 " ++ agent_id ++ " 的上下文构建失败，但仍需响应。"⟩,
       ⟨"user", user_message⟩]
    memory_used := false
    memories_count := 0
    agent_id := agent_id
    session_id := session_id
    collaborators := [] }

/-- ContextOrchestrator.build_payload: the try-block body with the catch-all
fallback to the minimal payload. -/
def buildPayload (o : OrcOracles)
    (user_id agent_id session_id user_message : String)
    (cached_messages : List HistEntry) (extra_context : Option String)
    (memory_type : Option String) (memory_metadata : Option CtrlMetadata)
    (expert_domain : Option String) : ContextPayload :=
  match buildPayloadBody o user_id agent_id session_id user_message
      cached_messages extra_context memory_type memory_metadata expert_domain
  with
  | .ok payload => payload
  | .error _ => minimalPayload agent_id session_id user_message

/-- Every successful `build_payload` body produces a message list that is
some prefix, then the surviving history fragments, then the current user
message. -/
theorem buildPayloadBody_ok_shape (o : OrcOracles)
    (user_id agent_id session_id user_message : String)
    (cached_messages : List HistEntry) (extra_context : Option String)
    (memory_type : Option String) (memory_metadata : Option CtrlMetadata)
    (expert_domain : Option String) (p : ContextPayload)
    (h : buildPayloadBody o user_id agent_id session_id user_message
      cached_messages extra_context memory_type memory_metadata expert_domain =
      .ok p) :
    ∃ pre, p.messages = pre ++
      (((trimHistory Config.maxHistoryMessages cached_messages).filterMap
        histEntryToMsg) ++
      [(⟨"user", user_message⟩ : Msg)]) := by
  unfold buildPayloadBody at h
  simp only [] at h
  repeat' split at h
  all_goals first
    | exact Except.noConfusion h
    | (injection h with h2
       subst h2
       dsimp only
       exact assembleMessages_shape _ _ _)

/-- C3: for every input and every outcome of the memory-backed helpers,
`build_payload` returns a payload whose message list is non-empty and ends
with the current user message tagged `user`; when any internal step raises,
the result is exactly the minimal two-fragment payload (degraded system
notice followed by the raw user message).  Totality of `buildPayload` is the
never-raises guarantee of the claim. -/
theorem C3_build_payload_never_fails (o : OrcOracles)
    (user_id agent_id session_id user_message : String)
    (cached_messages : List HistEntry) (extra_context : Option String)
    (memory_type : Option String) (memory_metadata : Option CtrlMetadata)
    (expert_domain : Option String) :
    (buildPayload o user_id agent_id session_id user_message cached_messages
        extra_context memory_type memory_metadata expert_domain).messages ≠ [] ∧
    (buildPayload o user_id agent_id session_id user_message cached_messages
        extra_context memory_type memory_metadata expert_domain).messages.getLast? =
      some (⟨"user", user_message⟩ : Msg) ∧
    (∀ e, buildPayloadBody o user_id agent_id session_id user_message
        cached_messages extra_context memory_type memory_metadata expert_domain =
        .error e →
      buildPayload o user_id agent_id session_id user_message cached_messages
          extra_context memory_type memory_metadata expert_domain =
        minimalPayload agent_id session_id user_message) := by
  unfold buildPayload
  cases hbody : buildPayloadBody o user_id agent_id session_id user_message
      cached_messages extra_context memory_type memory_metadata expert_domain with
  | error e =>
    refine ⟨by simp [minimalPayload], by simp [minimalPayload], ?_⟩
    intro e2 _
    rfl
  | ok p =>
    rcases buildPayloadBody_ok_shape o user_id agent_id session_id user_message
      cached_messages extra_context memory_type memory_metadata expert_domain
      p hbody with ⟨pre, hpre⟩
    refine ⟨?_, ?_, ?_⟩
    · simp [hpre]
    · rw [hpre, ← List.append_assoc, List.getLast?_concat]
    · intro e he
      exact absurd he (by simp)

/-- Witness for C3: a concrete run in which the expert-memory helper raises,
taken through the degraded path down to the minimal two-fragment payload. -/
theorem C3_build_payload_never_fails_witness :
    (buildPayload ⟨"", .error "boom", .ok "", .ok ""⟩ "u1" "algo_scientist"
        "s1" "你好" [] none (some "expert") none (some "algorithm")).messages ≠ [] ∧
    (buildPayload ⟨"", .error "boom", .ok "", .ok ""⟩ "u1" "algo_scientist"
        "s1" "你好" [] none (some "expert") none (some "algorithm")).messages.getLast? =
      some (⟨"user", "你好"⟩ : Msg) ∧
    buildPayload ⟨"", .error "boom", .ok "", .ok ""⟩ "u1" "algo_scientist"
        "s1" "你好" [] none (some "expert") none (some "algorithm") =
      minimalPayload "algo_scientist" "s1" "你好" :=
  ⟨(C3_build_payload_never_fails ⟨"", .error "boom", .ok "", .ok ""⟩ "u1"
      "algo_scientist" "s1" "你好" [] none (some "expert") none
      (some "algorithm")).1,
   (C3_build_payload_never_fails ⟨"", .error "boom", .ok "", .ok ""⟩ "u1"
      "algo_scientist" "s1" "你好" [] none (some "expert") none
      (some "algorithm")).2.1,
   (C3_build_payload_never_fails ⟨"", .error "boom", .ok "", .ok ""⟩ "u1"
      "algo_scientist" "s1" "你好" [] none (some "expert") none
      (some "algorithm")).2.2 "boom" rfl⟩

/-- Trimming then filtering the history is one pass of `coerceHistEntry`
over the trailing window. -/
theorem trimHistory_filterMap (cached_messages : List HistEntry) :
    (trimHistory Config.maxHistoryMessages cached_messages).filterMap
        histEntryToMsg =
      (pyTakeLast Config.maxHistoryMessages.toNat cached_messages).filterMap
        coerceHistEntry := by
  unfold trimHistory
  rw [if_neg (by decide), List.filterMap_filterMap]
  congr 1
  funext e
  cases e with
  | dict r c => cases r <;> cases c <;> rfl
  | other _ => rfl

/-- C8 amended: on every successful payload build, the history fragments
that reach the payload are exactly the dict entries of the trailing
`max_history` window that carry content — an entry without a role tag is
assigned the default role `system` and included when it has content, but an
entry without content, or a non-dict entry, is dropped (with only a console
warning) rather than coerced; every fragment that does reach the payload
carries both a role tag and content (the `Msg` shape). -/
theorem C8_history_coercion (o : OrcOracles)
    (user_id agent_id session_id user_message : String)
    (cached_messages : List HistEntry) (extra_context : Option String)
    (memory_type : Option String) (memory_metadata : Option CtrlMetadata)
    (expert_domain : Option String) (p : ContextPayload)
    (h : buildPayloadBody o user_id agent_id session_id user_message
      cached_messages extra_context memory_type memory_metadata expert_domain =
      .ok p) :
    ∃ pre, p.messages = pre ++
      (((pyTakeLast Config.maxHistoryMessages.toNat cached_messages).filterMap
        coerceHistEntry) ++ [(⟨"user", user_message⟩ : Msg)]) := by
  rcases buildPayloadBody_ok_shape o user_id agent_id session_id user_message
    cached_messages extra_context memory_type memory_metadata expert_domain
    p h with ⟨pre, hpre⟩
  exact ⟨pre, by rw [hpre, trimHistory_filterMap]⟩

/-- Witness for C8 amended: a concrete history containing a role-less entry
with content, a content-less entry and a non-dict entry. -/
theorem C8_history_coercion_witness :
    ∃ pre,
      (buildPayload ⟨"", .ok "", .ok "", .ok ""⟩ "u1" "algo_scientist" "s1"
          "你好"
          [HistEntry.dict none (some "早"), HistEntry.dict (some "user") none,
           HistEntry.other "42"] none none none none).messages = pre ++
        (((pyTakeLast Config.maxHistoryMessages.toNat
            [HistEntry.dict none (some "早"), HistEntry.dict (some "user") none,
             HistEntry.other "42"]).filterMap coerceHistEntry) ++
         [(⟨"user", "你好"⟩ : Msg)]) :=
  C8_history_coercion ⟨"", .ok "", .ok "", .ok ""⟩ "u1" "algo_scientist" "s1"
    "你好"
    [HistEntry.dict none (some "早"), HistEntry.dict (some "user") none,
     HistEntry.other "42"] none none none none _ rfl

/-- Counterexample for C8 as stated: a history entry carrying a role tag but
no content is silently discarded, not coerced — the payload built from that
single-entry history is identical to the payload built from an empty
history, and it holds only the system prompt and the user message. -/
theorem C8_history_dropped_counterexample :
    buildPayload ⟨"", .ok "", .ok "", .ok ""⟩ "u1" "algo_scientist" "s1" "你好"
        [HistEntry.dict (some "user") none] none none none none =
      buildPayload ⟨"", .ok "", .ok "", .ok ""⟩ "u1" "algo_scientist" "s1"
        "你好" [] none none none none ∧
    (buildPayload ⟨"", .ok "", .ok "", .ok ""⟩ "u1" "algo_scientist" "s1"
        "你好" [HistEntry.dict (some "user") none] none none none
        none).messages.length = 2 :=
  ⟨rfl, rfl⟩

/-! ## Chat Engine (src/core/chat_engine.py)

State threaded through one engine invocation: the conversation cache and the
ordered list of attempted memory-store adds.  The LLM transport is the
oracle `llm`; `_call_llm` catches its failure and returns the error text as
the reply content. -/

/-- Mutable engine state: the conversation cache and the attempted memory
adds, in order. -/
structure EngState where
  cache : ConversationCache
  memCalls : List AddCall

/-- ChatEngine._call_llm: the validation loop is the identity on well-formed
messages (modelled by the `Msg` shape); a raised transport error is caught
and converted into an error text returned as the content. -/
def callLLM (llm : List Msg → Except String String) (messages : List Msg) :
    String :=
  match llm messages with
  | .ok s => s
  | .error e => "生成回复时发生错误: " ++ e

/-- ChatEngine._finalize_interaction: update the conversation cache when
`persist_history` is set (user turn first, then assistant turn), and when
`store_memory` is set perform the classified long-term write — note that the
expert and project branches require the `memory_type` argument, and the
default branch stores with memory_type "user" whatever the agent id is. -/
def finalizeInteraction (caps : Capabilities) (addOk : AddCall → Bool)
    (user_message assistant_response user_id agent_id session_id : String)
    (persist_history store_memory_flag : Bool) (memory_type : Option String)
    (memory_metadata : Option CtrlMetadata) (st : EngState) : EngState :=
  let cache1 :=
    if persist_history then
      (st.cache.add_message user_id ⟨"user", user_message⟩).add_message
        user_id ⟨"assistant", assistant_response⟩
    else st.cache
  let newCalls :=
    if store_memory_flag then
      if (memory_type == some "expert") && memory_metadata.isSome then
        (store_memory caps addOk
          ("用户提问: " ++ user_message ++ "\n专家回复: " ++ assistant_response)
          user_id (some agent_id) (some session_id) "expert").2
      else if memory_type == some "project" then
        (store_memory caps addOk
          ("用户提问: " ++ user_message ++ "\n系统回复: " ++ assistant_response)
          user_id (some "project_brain") (some session_id) "project").2
      else
        (store_memory caps addOk
          ("用户提问: " ++ user_message ++ "\n系统回复: " ++ assistant_response)
          user_id (some agent_id) (some session_id) "user").2
    else []
  { cache := cache1, memCalls := st.memCalls ++ newCalls }

/-- ChatEngine.generate_response.  The outer try/except of the source
returns an apologetic response with the error field set, but every callee
catches its own failures (`build_payload`, `_call_llm`, `store_memory`), so
that handler is unreachable and the body is modelled directly; in
particular the returned error field is always `None`. -/
def generateResponse (o : OrcOracles) (llm : List Msg → Except String String)
    (caps : Capabilities) (addOk : AddCall → Bool) (message : String)
    (user_id agent_id session_id : Option String)
    (persist_history store_memory_flag : Bool) (extra_context : Option String)
    (cached_messages_override : Option (List HistEntry))
    (memory_type : Option String) (memory_metadata : Option CtrlMetadata)
    (st : EngState) : ChatResponse × EngState :=
  let uid := if optTruthy user_id then user_id.getD "" else Config.DEFAULT_USER_ID
  let aid := if optTruthy agent_id then agent_id.getD "" else Config.DEFAULT_AGENT_ID
  let sid := if optTruthy session_id then session_id.getD "" else Config.DEFAULT_SESSION_ID
  let cached := match cached_messages_override with
    | some xs => xs
    | none =>
      (st.cache.get_recent_messages uid (some Config.maxHistoryMessages)).map
        (fun m => HistEntry.dict (some m.role) (some m.content))
  let payload := buildPayload o uid aid sid message cached extra_context
    memory_type memory_metadata none
  let assistant_response := callLLM llm payload.messages
  let st2 := finalizeInteraction caps addOk message assistant_response uid aid
    sid persist_history store_memory_flag memory_type memory_metadata st
  ({ content := assistant_response
     user_id := uid
     agent_id := some aid
     session_id := some sid
     memory_used := payload.memory_used
     memories_count := payload.memories_count
     collaborators := payload.collaborators
     error := none }, st2)

/-! ## Multi-Agent Controller (src/core/agent_controller.py)

The controller depends on the chat engine only through
`generate_response`; it is modelled generically over a possibly-raising
engine function, instantiated below with the faithful `ChatEngine` model.
`EngineCall` lists exactly the keyword arguments `_call_agent` passes — in
particular it carries NO `memory_type` (the source never forwards that
argument, so `generate_response` always receives its default `None`). -/

/-- The keyword arguments of the one `generate_response` call made by
`_call_agent`. -/
structure EngineCall where
  prompt : String
  user_id : String
  agent_id : String
  session_id : String
  persist_history : Bool
  store_memory : Bool
  extra_context : Option String
  memory_metadata : Option CtrlMetadata
deriving Repr

/-- Observable events of one orchestration run: each engine invocation (in
execution order) and each Agent Selector invocation. -/
inductive Event where
  | agentCall (agent_id : String)
  | selectorRun
deriving DecidableEq, Repr

/-- The faithful `ChatEngine.generate_response` as an engine function: it
never raises (every callee catches its own failures), and forwards no `memory_type`. -/
def chatEngineFn (o : OrcOracles) (llm : List Msg → Except String String)
    (caps : Capabilities) (addOk : AddCall → Bool) :
    EngineCall → EngState → Except String ChatResponse × EngState :=
  fun c st =>
    let r := generateResponse o llm caps addOk c.prompt (some c.user_id)
      (some c.agent_id) (some c.session_id) c.persist_history c.store_memory
      c.extra_context none none c.memory_metadata st
    (.ok r.1, r.2)

/-- Python truthiness of the `error` field (`if response.error:`). -/
def errTruthy : Option String → Bool
  | none => false
  | some s => s ≠ ""

/-- The metadata dict `_call_agent` builds from its `memory_type` argument
(note the `expert_domain` value is the agent id itself, not the domain). -/
def callAgentMetadata (agent_id : String) (memory_type : Option String) :
    Option CtrlMetadata :=
  match memory_type with
  | some mt =>
    some { memory_type := mt
           expert_domain := if mt = "expert" then some agent_id else none }
  | none => none

/-- The exact `generate_response` invocation `_call_agent` performs:
`store_memory=True` always, and no `memory_type` keyword. -/
def mkEngineCall (agent_id prompt user_id session_id : String)
    (persist_history : Bool) (extra_context : Option String)
    (memory_type : Option String) : EngineCall :=
  { prompt := prompt
    user_id := user_id
    agent_id := agent_id
    session_id := session_id
    persist_history := persist_history
    store_memory := true
    extra_context := extra_context
    memory_metadata := callAgentMetadata agent_id memory_type }

/-- MultiAgentController._call_agent, generic over the engine: builds the
memory metadata dict, invokes the engine with `store_memory=True`, papers
over an error-with-empty-content response, and converts a raised exception
into an error response at this boundary. -/
def callAgent {σ : Type}
    (engine : EngineCall → σ → Except String ChatResponse × σ)
    (agent_id prompt user_id session_id : String) (persist_history : Bool)
    (extra_context : Option String) (memory_type : Option String) (st : σ) :
    ChatResponse × σ × List Event :=
  match engine
      (mkEngineCall agent_id prompt user_id session_id persist_history
        extra_context memory_type) st with
  | (.ok resp, st2) =>
    let resp2 :=
      if errTruthy resp.error && (resp.content == "") then
        { resp with content :=
            "[代理 " ++ agent_id ++ " 生成回复时出错: " ++ resp.error.getD "" ++ "]" }
      else resp
    (resp2, st2, [Event.agentCall agent_id])
  | (.error e, st2) =>
    ({ content := "[代理 " ++ agent_id ++ " 执行异常: " ++ e ++ "]"
       user_id := user_id
       agent_id := some agent_id
       session_id := some session_id
       error := some e }, st2, [Event.agentCall agent_id])

/-- MultiAgentController._get_agent_name. -/
def getAgentName (agent_id : String) : String :=
  (((lookupProfile agent_id).getD {}).name).getD agent_id

/-- MultiAgentController._get_expert_memory_context (placeholder text in the
source). -/
def expertMemoryContext : String := "[专家领域相关记忆]"

/-- MultiAgentController._get_project_memory_context (placeholder text in
the source). -/
def projectMemoryContext : String := "[项目相关记忆]"

/-- MultiAgentController._build_project_brain_prompt. -/
def buildProjectBrainPrompt (user_message : String) : String :=
  let profile := (lookupProfile Config.PROJECT_BRAIN_ID).getD {}
  let instructions := profile.instructions.getD ""
  let name := profile.name.getD "项目大脑"
  let description := profile.description.getD ""
  "你是 " ++ name ++ "，" ++ description ++ "\n" ++
  "作为项目大脑，你需要整合所有专家意见，协调各方面资源。\n" ++
  "请输出：\n" ++
  "1. 项目目标摘要\n" ++
  "2. 关键风险/依赖\n" ++
  "3. 需要协调的专家领域\n" ++
  "请使用分点形式，语言简练。\n\n" ++
  "[内部执行手册]\n" ++ instructions ++ "\n\n" ++
  "[用户输入]\n" ++ user_message

/-- MultiAgentController._build_product_expert_prompt. -/
def buildProductExpertPrompt (name instructions style project_summary
    user_message : String) : String :=
  "你是 " ++ name ++ "，一位资深产品专家。\n" ++
  "请基于用户需求和项目摘要，从产品角度进行深入分析并提供专业建议。\n" ++
  "请重点关注：\n" ++
  "1. 用户需求的核心价值点和潜在痛点\n" ++
  "2. 功能范围界定和优先级排序\n" ++
  "3. 用户体验设计和交互流程建议\n" ++
  "4. 产品路线图和迭代计划\n" ++
  "5. 成功指标和验收标准\n" ++
  "表达风格：" ++ style ++ "\n\n" ++
  "[产品专家工作指南]\n" ++ instructions ++ "\n\n" ++
  "[项目概述]\n" ++ project_summary ++ "\n\n" ++
  "[用户需求]\n" ++ user_message ++ "\n\n" ++
  "请提供详细、可操作的产品建议，帮助团队明确产品方向和具体实现路径。"

/-- MultiAgentController._build_algo_expert_prompt. -/
def buildAlgoExpertPrompt (name instructions style project_summary
    user_message : String) : String :=
  "你是 " ++ name ++ "，一位资深算法专家。\n" ++
  "请基于用户需求和项目摘要，从算法和技术角度进行深入分析并提供专业建议。\n" ++
  "请重点关注：\n" ++
  "1. 问题的算法本质和技术路径\n" ++
  "2. 多种算法方案的比较和选型建议\n" ++
  "3. 数据需求分析和质量要求\n" ++
  "4. 模型复杂度和算力评估\n" ++
  "5. 性能瓶颈预测和优化方向\n" ++
  "6. 实验设计和评估指标\n" ++
  "表达风格：" ++ style ++ "\n\n" ++
  "[算法专家工作指南]\n" ++ instructions ++ "\n\n" ++
  "[项目概述]\n" ++ project_summary ++ "\n\n" ++
  "[用户需求]\n" ++ user_message ++ "\n\n" ++
  "请提供严谨、科学的算法解决方案，包括技术选型依据和实施建议。"

/-- MultiAgentController._build_architecture_expert_prompt. -/
def buildArchitectureExpertPrompt (name instructions style project_summary
    user_message : String) : String :=
  "你是 " ++ name ++ "，一位资深解决方案架构师。\n" ++
  "请基于用户需求和项目摘要，从系统架构和技术实现角度进行深入分析并提供专业建议。\n" ++
  "请重点关注：\n" ++
  "1. 端到端系统架构设计\n" ++
  "2. 技术栈选型和组件划分\n" ++
  "3. 接口规范和集成策略\n" ++
  "4. 部署架构和资源规划\n" ++
  "5. 数据流转和存储方案\n" ++
  "6. 性能、安全和扩展性评估\n" ++
  "表达风格：" ++ style ++ "\n\n" ++
  "[架构师工作指南]\n" ++ instructions ++ "\n\n" ++
  "[项目概述]\n" ++ project_summary ++ "\n\n" ++
  "[用户需求]\n" ++ user_message ++ "\n\n" ++
  "请提供全面、可落地的架构方案，确保系统的可行性、可扩展性和可维护性。"

/-- MultiAgentController._build_specialist_prompt. -/
def buildSpecialistPrompt (agent_id user_message project_summary : String) :
    String :=
  let profile := (lookupProfile agent_id).getD {}
  let instructions := profile.instructions.getD ""
  let name := profile.name.getD agent_id
  let style := profile.style.getD "专业、清晰"
  if agent_id = "product_lead" then
    buildProductExpertPrompt name instructions style project_summary user_message
  else if agent_id = "algo_scientist" then
    buildAlgoExpertPrompt name instructions style project_summary user_message
  else if agent_id = "solution_architect" then
    buildArchitectureExpertPrompt name instructions style project_summary
      user_message
  else
    "你是 " ++ name ++ "，负责给出专业建议。\n" ++
    "请结合项目大脑提供的摘要与用户需求，输出你的专业分析和建议。\n" ++
    "表达风格：" ++ style ++ "\n\n" ++
    "[专家工作守则]\n" ++ instructions ++ "\n\n" ++
    "[项目大脑摘要]\n" ++ project_summary ++ "\n\n" ++
    "[用户输入]\n" ++ user_message

/-- MultiAgentController._build_final_prompt. -/
def buildFinalPrompt (user_message project_summary : String)
    (specialist_outputs : List SpecialistResult) : String :=
  let joined := String.intercalate "\n\n"
    (specialist_outputs.map (fun out =>
      "- " ++ getAgentName out.agent_id ++ " 专家反馈：" ++ out.content))
  let specialist_section := if joined = "" then "暂无专家反馈。" else joined
  let profile := (lookupProfile Config.PROJECT_BRAIN_ID).getD {}
  let name := profile.name.getD "项目大脑"
  "你是 " ++ name ++ "，需要整合所有专家意见，对用户给出结构化的项目方案。\n" ++
  "请输出：\n" ++
  "1. 总体策略/路线\n" ++
  "2. 按角色分配的行动项与里程碑\n" ++
  "3. 风险与待澄清问题\n" ++
  "必须引用具体专家结论或记忆来源。\n\n" ++
  "[项目大脑摘要]\n" ++ project_summary ++ "\n\n" ++
  "[专家反馈汇总]\n" ++ specialist_section ++ "\n\n" ++
  "[用户输入]\n" ++ user_message

/-- The direct-delegate condition of `process_user_message`:
`target_agent and target_agent != project_brain_id and target_agent in
Config.AGENT_PROFILES`. -/
def directMode (target_agent : Option String) : Bool :=
  match target_agent with
  | some t => (t ≠ "") && (t ≠ Config.PROJECT_BRAIN_ID) && isProfileKey t
  | none => false

/-- The sequential specialist loop of full orchestration mode: one
`_call_agent` per selected role, in selection order, collecting one
SpecialistResult each. -/
def runSpecialists {σ : Type}
    (engine : EngineCall → σ → Except String ChatResponse × σ)
    (user_message project_summary user_id session_id : String) :
    List String → σ → List SpecialistResult × σ × List Event
  | [], st => ([], st, [])
  | agent_id :: rest, st =>
    let r := callAgent engine agent_id
      (buildSpecialistPrompt agent_id user_message project_summary)
      user_id session_id false
      (some (project_summary ++ "\n" ++ expertMemoryContext))
      (some "expert") st
    let rec2 := runSpecialists engine user_message project_summary user_id
      session_id rest r.2.1
    (⟨agent_id, r.1.content⟩ :: rec2.1, rec2.2.1, r.2.2 ++ rec2.2.2)

/-- MultiAgentController.process_user_message: direct-delegate mode when a
valid non-coordinating target is requested, otherwise the full orchestration
flow (coordinating role, selector, each specialist sequentially,
coordinating role again for synthesis). -/
def processUserMessage {σ : Type}
    (engine : EngineCall → σ → Except String ChatResponse × σ)
    (user_message user_id session_id : String)
    (target_agent : Option String) (st : σ) :
    MultiAgentResult × σ × List Event :=
  if directMode target_agent then
    let t := target_agent.getD ""
    let r := callAgent engine t
      (buildSpecialistPrompt t user_message "") user_id session_id true
      (some expertMemoryContext) (some "expert") st
    ({ project_summary := ""
       selected_agents := [t]
       specialist_outputs := [⟨t, r.1.content⟩]
       final_response := r.1 }, r.2.1, r.2.2)
  else
    let r1 := callAgent engine Config.PROJECT_BRAIN_ID
      (buildProjectBrainPrompt user_message) user_id session_id false
      (some projectMemoryContext) (some "project") st
    let project_summary := r1.1.content
    let specialist_ids := selectSpecialists Config.AGENT_PROFILES
      Config.maxSpecialists Config.fallbackSpecialists user_message
    let r2 := runSpecialists engine user_message project_summary user_id
      session_id specialist_ids r1.2.1
    let final_prompt := buildFinalPrompt user_message project_summary r2.1
    let r3 := callAgent engine Config.PROJECT_BRAIN_ID final_prompt user_id
      session_id true
      (some (project_summary ++ "\n" ++ projectMemoryContext))
      (some "project") r2.2.1
    ({ project_summary := project_summary
       selected_agents := specialist_ids
       specialist_outputs := r2.1
       final_response := r3.1 },
     r3.2.1,
     r1.2.2 ++ [Event.selectorRun] ++ r2.2.2 ++ r3.2.2)

/-- Every `_call_agent` invocation produces exactly one agent-call event,
whether the engine returns or raises. -/
theorem callAgent_events {σ : Type}
    (engine : EngineCall → σ → Except String ChatResponse × σ)
    (agent_id prompt user_id session_id : String) (persist_history : Bool)
    (extra_context : Option String) (memory_type : Option String) (st : σ) :
    (callAgent engine agent_id prompt user_id session_id persist_history
      extra_context memory_type st).2.2 = [Event.agentCall agent_id] := by
  unfold callAgent
  simp only []
  repeat' split
  all_goals rfl

/-- The specialist loop yields one SpecialistResult per selected role id, in
selection order with matching agent ids, and one agent-call event per role
in the same order. -/
theorem runSpecialists_spec {σ : Type}
    (engine : EngineCall → σ → Except String ChatResponse × σ)
    (user_message project_summary user_id session_id : String) :
    ∀ (ids : List String) (st : σ),
      ((runSpecialists engine user_message project_summary user_id session_id
          ids st).1.map SpecialistResult.agent_id = ids) ∧
      ((runSpecialists engine user_message project_summary user_id session_id
          ids st).2.2 = ids.map Event.agentCall) := by
  intro ids
  induction ids with
  | nil => intro st; exact ⟨rfl, rfl⟩
  | cons a rest ih =>
    intro st
    constructor
    · simp only [runSpecialists, List.map_cons]
      rw [(ih _).1]
    · simp only [runSpecialists, List.map_cons]
      rw [callAgent_events, (ih _).2]
      rfl

/-- C1: in full orchestration mode (no target role), the run invokes the
coordinating role first, then runs the selector, then each selected
specialist strictly sequentially in selection order, and invokes the
coordinating role again for synthesis only after all specialists; the
returned MultiAgentResult lists exactly the selected role ids and one
SpecialistResult per selected role, in selection order, with matching agent
ids. -/
theorem C1_full_orchestration_order {σ : Type}
    (engine : EngineCall → σ → Except String ChatResponse × σ)
    (user_message user_id session_id : String) (st : σ) :
    ((processUserMessage engine user_message user_id session_id none st).2.2 =
      [Event.agentCall Config.PROJECT_BRAIN_ID, Event.selectorRun] ++
      (selectSpecialists Config.AGENT_PROFILES Config.maxSpecialists
        Config.fallbackSpecialists user_message).map Event.agentCall ++
      [Event.agentCall Config.PROJECT_BRAIN_ID]) ∧
    ((processUserMessage engine user_message user_id session_id none
        st).1.selected_agents =
      selectSpecialists Config.AGENT_PROFILES Config.maxSpecialists
        Config.fallbackSpecialists user_message) ∧
    ((processUserMessage engine user_message user_id session_id none
        st).1.specialist_outputs.map SpecialistResult.agent_id =
      selectSpecialists Config.AGENT_PROFILES Config.maxSpecialists
        Config.fallbackSpecialists user_message) := by
  have hdm : directMode none = false := rfl
  refine ⟨?_, ?_, ?_⟩
  · simp only [processUserMessage, hdm, Bool.false_eq_true, if_false]
    rw [callAgent_events, callAgent_events,
      (runSpecialists_spec engine user_message _ user_id session_id _ _).2]
    simp
  · simp only [processUserMessage, hdm, Bool.false_eq_true, if_false]
  · simp only [processUserMessage, hdm, Bool.false_eq_true, if_false]
    exact (runSpecialists_spec engine user_message _ user_id session_id _ _).1

/-- A role id present in the profile table is never the empty string. -/
theorem isProfileKey_ne_empty {t : String} (h : isProfileKey t = true) :
    t ≠ "" := by
  intro hempty
  subst hempty
  exact absurd h (by decide)

/-- C9: for every explicitly requested target role that is in the profile
table and is not the coordinating role, the run performs exactly one engine
invocation (for the target) and never invokes the Agent Selector, and the
returned MultiAgentResult has selected_agents equal to the singleton target,
an empty project summary, and exactly one SpecialistResult for the target
whose content is the content of the final response. -/
theorem C9_direct_delegate {σ : Type}
    (engine : EngineCall → σ → Except String ChatResponse × σ)
    (user_message user_id session_id t : String) (st : σ)
    (hmem : isProfileKey t = true) (hne : t ≠ Config.PROJECT_BRAIN_ID) :
    ((processUserMessage engine user_message user_id session_id (some t)
        st).2.2 = [Event.agentCall t]) ∧
    (Event.selectorRun ∉
      (processUserMessage engine user_message user_id session_id (some t)
        st).2.2) ∧
    ((processUserMessage engine user_message user_id session_id (some t)
        st).1.selected_agents = [t]) ∧
    ((processUserMessage engine user_message user_id session_id (some t)
        st).1.project_summary = "") ∧
    ((processUserMessage engine user_message user_id session_id (some t)
        st).1.specialist_outputs =
      [⟨t, (processUserMessage engine user_message user_id session_id (some t)
        st).1.final_response.content⟩]) := by
  have hdm : directMode (some t) = true := by
    unfold directMode
    simp [isProfileKey_ne_empty hmem, hne, hmem]
  have hevents : (processUserMessage engine user_message user_id session_id
      (some t) st).2.2 = [Event.agentCall t] := by
    simp only [processUserMessage, hdm, if_true, Option.getD_some]
    rw [callAgent_events]
  refine ⟨hevents, ?_, ?_, ?_, ?_⟩
  · rw [hevents]
    simp
  · simp only [processUserMessage, hdm, if_true, Option.getD_some]
  · simp only [processUserMessage, hdm, if_true, Option.getD_some]
  · simp only [processUserMessage, hdm, if_true, Option.getD_some]

/-- Witness for C9: direct delegation to `algo_scientist` with a constant
engine. -/
theorem C9_direct_delegate_witness :
    ((processUserMessage
        (fun _ (st : Unit) => (.ok { content := "回复", user_id := "u1" }, st))
        "问题" "u1" "s1" (some "algo_scientist") ()).2.2 =
      [Event.agentCall "algo_scientist"]) ∧
    (Event.selectorRun ∉
      (processUserMessage
        (fun _ (st : Unit) => (.ok { content := "回复", user_id := "u1" }, st))
        "问题" "u1" "s1" (some "algo_scientist") ()).2.2) ∧
    ((processUserMessage
        (fun _ (st : Unit) => (.ok { content := "回复", user_id := "u1" }, st))
        "问题" "u1" "s1" (some "algo_scientist") ()).1.selected_agents =
      ["algo_scientist"]) ∧
    ((processUserMessage
        (fun _ (st : Unit) => (.ok { content := "回复", user_id := "u1" }, st))
        "问题" "u1" "s1" (some "algo_scientist") ()).1.project_summary = "") ∧
    ((processUserMessage
        (fun _ (st : Unit) => (.ok { content := "回复", user_id := "u1" }, st))
        "问题" "u1" "s1" (some "algo_scientist") ()).1.specialist_outputs =
      [⟨"algo_scientist",
        (processUserMessage
          (fun _ (st : Unit) => (.ok { content := "回复", user_id := "u1" }, st))
          "问题" "u1" "s1" (some "algo_scientist") ()).1.final_response.content⟩]) :=
  C9_direct_delegate
    (fun _ (st : Unit) => (.ok { content := "回复", user_id := "u1" }, st))
    "问题" "u1" "s1" "algo_scientist" () (by decide) (by decide)

/-- C4 amended: the controller never raises; an exception that escapes the
engine call is caught at the `_call_agent` boundary and becomes a response
whose content states the failure and whose error field is set; but an
exception raised inside the LLM call itself is swallowed by `_call_llm` and
surfaces only as content text — the returned error field stays `None`. -/
theorem C4_error_surfacing :
    (∀ (σ : Type) (engine : EngineCall → σ → Except String ChatResponse × σ)
        (agent_id prompt user_id session_id : String) (persist_history : Bool)
        (extra_context : Option String) (memory_type : Option String)
        (st st2 : σ) (e : String),
      engine (mkEngineCall agent_id prompt user_id session_id persist_history
        extra_context memory_type) st = (.error e, st2) →
      callAgent engine agent_id prompt user_id session_id persist_history
          extra_context memory_type st =
        ({ content := "[代理 " ++ agent_id ++ " 执行异常: " ++ e ++ "]"
           user_id := user_id
           agent_id := some agent_id
           session_id := some session_id
           error := some e }, st2, [Event.agentCall agent_id])) ∧
    (∀ (o : OrcOracles) (caps : Capabilities) (addOk : AddCall → Bool)
        (e agent_id prompt user_id session_id : String)
        (persist_history : Bool) (extra_context : Option String)
        (memory_type : Option String) (st : EngState),
      ((callAgent (chatEngineFn o (fun _ => .error e) caps addOk) agent_id
          prompt user_id session_id persist_history extra_context memory_type
          st).1.content = "生成回复时发生错误: " ++ e) ∧
      ((callAgent (chatEngineFn o (fun _ => .error e) caps addOk) agent_id
          prompt user_id session_id persist_history extra_context memory_type
          st).1.error = none)) := by
  constructor
  · intro σ engine agent_id prompt user_id session_id ph ec mt st st2 e h
    unfold callAgent
    rw [h]
  · intro o caps addOk e agent_id prompt user_id session_id ph ec mt st
    exact ⟨rfl, rfl⟩

/-- Witness for C4 amended: a raising engine at the boundary, and the
faithful engine with a raising LLM transport. -/
theorem C4_error_surfacing_witness :
    (callAgent
        (fun (_ : EngineCall) (st : Unit) =>
          ((.error "x" : Except String ChatResponse), st))
        "algo_scientist" "提示" "u1" "s1" true none none ()) =
      ({ content := "[代理 " ++ "algo_scientist" ++ " 执行异常: " ++ "x" ++ "]"
         user_id := "u1"
         agent_id := some "algo_scientist"
         session_id := some "s1"
         error := some "x" }, (), [Event.agentCall "algo_scientist"]) ∧
    ((callAgent (chatEngineFn ⟨"", .ok "", .ok "", .ok ""⟩
        (fun _ => .error "boom") allCaps (fun _ => true)) "algo_scientist"
        "提示" "u1" "s1" true none none
        ⟨ConversationCache.init 5, []⟩).1.content =
      "生成回复时发生错误: " ++ "boom") ∧
    ((callAgent (chatEngineFn ⟨"", .ok "", .ok "", .ok ""⟩
        (fun _ => .error "boom") allCaps (fun _ => true)) "algo_scientist"
        "提示" "u1" "s1" true none none
        ⟨ConversationCache.init 5, []⟩).1.error = none) :=
  ⟨C4_error_surfacing.1 Unit
      (fun _ st => ((.error "x" : Except String ChatResponse), st))
      "algo_scientist" "提示" "u1" "s1" true none none () () "x" rfl,
   (C4_error_surfacing.2 ⟨"", .ok "", .ok "", .ok ""⟩ allCaps (fun _ => true)
      "boom" "algo_scientist" "提示" "u1" "s1" true none none
      ⟨ConversationCache.init 5, []⟩).1,
   (C4_error_surfacing.2 ⟨"", .ok "", .ok "", .ok ""⟩ allCaps (fun _ => true)
      "boom" "algo_scientist" "提示" "u1" "s1" true none none
      ⟨ConversationCache.init 5, []⟩).2⟩

/-- Counterexample for C4 as stated: a model-invocation exception (the LLM
transport raising "boom") is converted into a response whose content states
the failure, but whose error field is NOT set — `_call_llm` swallows the
exception and `generate_response` returns the error text as ordinary
content. -/
theorem C4_llm_error_field_counterexample :
    ((callAgent (chatEngineFn ⟨"", .ok "", .ok "", .ok ""⟩
        (fun _ => .error "boom") allCaps (fun _ => true)) "algo_scientist"
        "请分析" "u1" "s1" true (some "[专家领域相关记忆]") (some "expert")
        ⟨ConversationCache.init 5, []⟩).1.error = none) ∧
    ((callAgent (chatEngineFn ⟨"", .ok "", .ok "", .ok ""⟩
        (fun _ => .error "boom") allCaps (fun _ => true)) "algo_scientist"
        "请分析" "u1" "s1" true (some "[专家领域相关记忆]") (some "expert")
        ⟨ConversationCache.init 5, []⟩).1.content =
      "生成回复时发生错误: " ++ "boom") :=
  ⟨rfl, rfl⟩

/-- Every `store_memory` write attempts at least one add. -/
theorem store_memory_calls_pos (caps : Capabilities) (addOk : AddCall → Bool)
    (content user_id : String) (agent_id session_id : Option String)
    (memory_type : String) :
    0 < (store_memory caps addOk content user_id agent_id session_id
      memory_type).2.length := by
  unfold store_memory storeMemoryCore
  simp only []
  split <;> simp

/-- C5: `_call_agent` builds its memory metadata for type "expert" but does
not pass the `memory_type` keyword to `generate_response`, so
`_finalize_interaction` always takes its default branch — a controller-driven
direct delegation to the specialist `algo_scientist` stores exactly one
record whose scope metadata is `user` (while its agent-derived enrichment
still carries `is_expert_memory` / domain `algorithm`); the expert branch of
`_finalize_interaction` itself would store scope `expert`, as the claim and
the branch comments intend, but it is unreachable from the controller. -/
theorem C5_scope_metadata_bug :
    ((processUserMessage
        (chatEngineFn ⟨"", .ok "", .ok "", .ok ""⟩ (fun _ => .ok "专家答复")
          allCaps (fun _ => true))
        "请优化推荐算法" "u1" "s1" (some "algo_scientist")
        ⟨ConversationCache.init 5, []⟩).2.1.memCalls.map AddCall.scopeTag =
      [some "user"]) ∧
    ((processUserMessage
        (chatEngineFn ⟨"", .ok "", .ok "", .ok ""⟩ (fun _ => .ok "专家答复")
          allCaps (fun _ => true))
        "请优化推荐算法" "u1" "s1" (some "algo_scientist")
        ⟨ConversationCache.init 5, []⟩).2.1.memCalls.map AddCall.domainTag =
      [some "algorithm"]) ∧
    ((processUserMessage
        (chatEngineFn ⟨"", .ok "", .ok "", .ok ""⟩ (fun _ => .ok "专家答复")
          allCaps (fun _ => true))
        "请优化推荐算法" "u1" "s1" (some "algo_scientist")
        ⟨ConversationCache.init 5, []⟩).2.1.memCalls.map AddCall.agentParam =
      [some "algo_scientist"]) ∧
    ((finalizeInteraction allCaps (fun _ => true) "请优化推荐算法" "专家答复"
        "u1" "algo_scientist" "s1" false true (some "expert")
        (callAgentMetadata "algo_scientist" (some "expert"))
        ⟨ConversationCache.init 5, []⟩).memCalls.map AddCall.scopeTag =
      [some "expert"]) :=
  ⟨rfl, rfl, rfl, rfl⟩

/-- C10: with the faithful engine, the persist flag of a controller-driven
invocation controls only the conversation cache — with persist false the
cache is unchanged — while the long-term write-back is attempted after the
model invocation with the same adds whatever the persist flag is (the
controller always passes store_memory=True). -/
theorem C10_persist_flag_frame (o : OrcOracles)
    (llm : List Msg → Except String String) (caps : Capabilities)
    (addOk : AddCall → Bool) (agent_id prompt user_id session_id : String)
    (extra_context : Option String) (memory_type : Option String)
    (st : EngState) :
    ((callAgent (chatEngineFn o llm caps addOk) agent_id prompt user_id
        session_id false extra_context memory_type st).2.1.cache = st.cache) ∧
    (∃ newCalls : List AddCall, 0 < newCalls.length ∧
      (callAgent (chatEngineFn o llm caps addOk) agent_id prompt user_id
        session_id false extra_context memory_type st).2.1.memCalls =
        st.memCalls ++ newCalls ∧
      (callAgent (chatEngineFn o llm caps addOk) agent_id prompt user_id
        session_id true extra_context memory_type st).2.1.memCalls =
        st.memCalls ++ newCalls) := by
  refine ⟨rfl, ⟨_, ?_, rfl, rfl⟩⟩
  exact store_memory_calls_pos caps addOk _ _ _ _ _
